import Mathlib

/-!
Verification development for the twilio-mcp conversation-threading and
message-persistence core.

The TypeScript source is shallowly embedded as follows:
* SQLite tables become Lean lists of row structures; SQL statements become
  the corresponding pure list operations (filter / find? / map / sort / take).
* Unix-millisecond timestamps become `Nat`; the wall clock (`Date.now()`)
  is passed in explicitly as a `now : Nat` argument.
* UUIDs are opaque tokens only ever compared for equality; they are modelled
  as `Nat` drawn from a fresh supply (`nextId`) carried in the store state,
  reflecting that `uuidv4()` yields a fresh identifier on every call.
* JavaScript `x || y` on strings/options (falsy coalescing, where both
  `undefined` and the empty string are falsy) is modelled explicitly by
  `jsOr` / `jsOrNull`, and `params.limit || 50` by `effectiveLimit`.
* The `media_urls` TEXT column holds either NULL or the JSON serialization
  of a string array; since `JSON.stringify` / `JSON.parse` are a lossless
  pair on arrays of strings (library contract, external to this repo, like
  SQLite itself), the cell is modelled as `Option (List String)`.
* JavaScript's default `Array.prototype.sort()` comparator on strings is a
  deterministic lexicographic order on code units; it is modelled by `jsLe`,
  a structurally recursive lexicographic order on `String.data` comparing
  code points, which agrees with the JS order on all ASCII strings (the
  E.164 phone-number domain of this code).
-/

namespace TwilioMcp

/-- Lexicographic order on lists of characters, comparing code points.
This is the comparator underlying the model of JavaScript's default string
sort order (exact on ASCII strings such as E.164 phone numbers). -/
def lexLe : List Char → List Char → Bool
  | [], _ => true
  | _ :: _, [] => false
  | a :: as, b :: bs =>
    if a.toNat < b.toNat then true
    else if b.toNat < a.toNat then false
    else lexLe as bs

/-- Model of the string order used by JavaScript's default `sort()`. -/
def jsLe (s t : String) : Prop := lexLe s.data t.data = true

instance : DecidableRel jsLe := fun s t => by unfold jsLe; infer_instance

theorem char_toNat_injective {a b : Char} (h : a.toNat = b.toNat) : a = b :=
  Char.ext (UInt32.ext h)

theorem lexLe_total : ∀ l m : List Char, lexLe l m = true ∨ lexLe m l = true
  | [], _ => Or.inl rfl
  | _ :: _, [] => Or.inr rfl
  | a :: as, b :: bs => by
    by_cases h1 : a.toNat < b.toNat
    · left; simp [lexLe, h1]
    · by_cases h2 : b.toNat < a.toNat
      · right; simp [lexLe, h1, h2]
      · simpa [lexLe, h1, h2] using lexLe_total as bs

theorem lexLe_trans :
    ∀ l m n : List Char, lexLe l m = true → lexLe m n = true → lexLe l n = true
  | [], _, _, _, _ => rfl
  | _ :: _, [], _, h1, _ => by simp [lexLe] at h1
  | _ :: _, _ :: _, [], _, h2 => by simp [lexLe] at h2
  | a :: as, b :: bs, c :: cs, h1, h2 => by
    simp only [lexLe] at h1 h2 ⊢
    by_cases hba : b.toNat < a.toNat
    · have hab : ¬ a.toNat < b.toNat := by omega
      simp [hab, hba] at h1
    · by_cases hcb : c.toNat < b.toNat
      · have hbc : ¬ b.toNat < c.toNat := by omega
        simp [hbc, hcb] at h2
      · by_cases hab : a.toNat < b.toNat
        · have hac : a.toNat < c.toNat := by omega
          simp [hac]
        · simp only [if_neg hab, if_neg hba] at h1
          by_cases hbc : b.toNat < c.toNat
          · have hac : a.toNat < c.toNat := by omega
            simp [hac]
          · simp only [if_neg hbc, if_neg hcb] at h2
            have hac : ¬ a.toNat < c.toNat := by omega
            have hca : ¬ c.toNat < a.toNat := by omega
            simp only [if_neg hac, if_neg hca]
            exact lexLe_trans as bs cs h1 h2

theorem lexLe_antisymm :
    ∀ l m : List Char, lexLe l m = true → lexLe m l = true → l = m
  | [], [], _, _ => rfl
  | [], _ :: _, _, h2 => by simp [lexLe] at h2
  | _ :: _, [], h1, _ => by simp [lexLe] at h1
  | a :: as, b :: bs, h1, h2 => by
    simp only [lexLe] at h1 h2
    by_cases hab : a.toNat < b.toNat
    · have hba : ¬ b.toNat < a.toNat := by omega
      simp [hab, hba] at h2
    · by_cases hba : b.toNat < a.toNat
      · simp [hab, hba] at h1
      · have hch : a = b := char_toNat_injective (by omega)
        subst hch
        simp only [if_neg hab, if_neg hba] at h1 h2
        rw [lexLe_antisymm as bs h1 h2]

instance : IsTotal String jsLe :=
  ⟨fun s t => by unfold jsLe; exact lexLe_total s.data t.data⟩

instance : IsTrans String jsLe :=
  ⟨fun s t u h1 h2 => lexLe_trans s.data t.data u.data h1 h2⟩

instance : IsAntisymm String jsLe :=
  ⟨fun s t h1 h2 => String.ext (lexLe_antisymm s.data t.data h1 h2)⟩

/-- Model of the JavaScript expression `x || d` for an optional string `x`:
both a missing value and the empty string are falsy and fall back to `d`. -/
def jsOr (x : Option String) (d : String) : String :=
  match x with
  | none => d
  | some s => if s = "" then d else s

/-- Model of the JavaScript expression `x || null` for an optional string:
a missing value and the empty string are both falsy and become NULL. -/
def jsOrNull (x : Option String) : Option String :=
  match x with
  | none => none
  | some s => if s = "" then none else some s

/-! Conversation store, from src/storage/conversation-store.ts.
A row of the `conversations` table; `participantsKey` is the pipe-joined
sorted phone-number list stored in the `participants` column, `metadata`
stands for the JSON-serialized metadata object (an open key-value map,
modelled as an association list), and `status` is the TEXT status column
holding "active" or "archived". -/
structure ConvRow where
  id : Nat
  participantsKey : String
  createdAt : Nat
  lastActivity : Nat
  metadata : List (String × String)
  status : String
deriving Repr, DecidableEq

/-- State of the conversations table plus the fresh-UUID supply. -/
structure ConversationDB where
  rows : List ConvRow
  nextId : Nat
deriving Repr, DecidableEq

namespace ConversationStore

/-- ConversationStore.getParticipantsKey:
`[...participants].sort().join('|')`. -/
def getParticipantsKey (participants : List String) : String :=
  String.intercalate "|" (List.insertionSort jsLe participants)

/-- ConversationStore.create: always inserts a new row with a fresh id,
status 'active', both timestamps set to now, and metadata defaulted to the
empty map (`JSON.stringify(metadata || {})`) when omitted. Returns the
inserted row together with the updated table state. -/
def create (db : ConversationDB) (participants : List String)
    (metadata : Option (List (String × String))) (now : Nat) :
    ConvRow × ConversationDB :=
  let row : ConvRow :=
    { id := db.nextId
      participantsKey := getParticipantsKey participants
      createdAt := now
      lastActivity := now
      metadata := metadata.getD []
      status := "active" }
  (row, { rows := db.rows ++ [row], nextId := db.nextId + 1 })

/-- Model of `ORDER BY last_activity DESC LIMIT 1` over a result set:
picks a row whose `lastActivity` is maximal, keeping the earlier row in
storage order on ties. -/
def pickLatest : List ConvRow → Option ConvRow
  | [] => none
  | r :: rs =>
    match pickLatest rs with
    | none => some r
    | some m => if m.lastActivity > r.lastActivity then some m else some r

/-- ConversationStore.findByParticipants:
`SELECT * FROM conversations WHERE participants = ? AND status = 'active'
ORDER BY last_activity DESC LIMIT 1`. -/
def findByParticipants (db : ConversationDB) (participants : List String) :
    Option ConvRow :=
  let key := getParticipantsKey participants
  pickLatest (db.rows.filter fun r =>
    r.participantsKey == key && r.status == "active")

/-- ConversationStore.getById:
`SELECT * FROM conversations WHERE id = ?`, regardless of status. -/
def getById (db : ConversationDB) (id : Nat) : Option ConvRow :=
  db.rows.find? fun r => r.id == id

/-- ConversationStore.updateLastActivity:
`UPDATE conversations SET last_activity = ? WHERE id = ?` with the current
time; a silent no-op when no row has the given id. -/
def updateLastActivity (db : ConversationDB) (id : Nat) (now : Nat) :
    ConversationDB :=
  { db with
    rows := db.rows.map fun r =>
      if r.id == id then { r with lastActivity := now } else r }

/-- ConversationStore.archive:
`UPDATE conversations SET status = 'archived' WHERE id = ?`. -/
def archive (db : ConversationDB) (id : Nat) : ConversationDB :=
  { db with
    rows := db.rows.map fun r =>
      if r.id == id then { r with status := "archived" } else r }

end ConversationStore

/-! Message store, from src/storage/message-store.ts. -/

/-- A row of the `messages` table. Field names follow the columns
(message_sid, conversation_id, direction, from_number, to_number, body,
media_urls, timestamp, status, error_code, error_message); `mediaUrls`
models the TEXT column holding NULL or a JSON string array. -/
structure MsgRow where
  messageSid : String
  conversationId : Nat
  direction : String
  fromNumber : String
  toNumber : String
  body : String
  mediaUrls : Option (List String)
  timestamp : Nat
  status : String
  errorCode : Option String
  errorMessage : Option String
deriving Repr, DecidableEq

/-- The API-level Message object produced by MessageStore.rowToMessage. -/
structure Message where
  messageSid : String
  conversationId : Nat
  direction : String
  fromNumber : String
  toNumber : String
  body : String
  mediaUrls : Option (List String)
  timestamp : Nat
  status : String
  errorCode : Option String
  errorMessage : Option String
deriving Repr, DecidableEq

/-- Argument of MessageStore.create, TS type
`Omit<Message, 'timestamp'> & { timestamp?: Date }`. -/
structure MessageInput where
  messageSid : String
  conversationId : Nat
  direction : String
  fromNumber : String
  toNumber : String
  body : String
  mediaUrls : Option (List String)
  status : String
  errorCode : Option String
  errorMessage : Option String
  timestamp : Option Nat
deriving Repr, DecidableEq

/-- Filters accepted by MessageStore.query. -/
structure QueryParams where
  fromNumber : Option String
  toNumber : Option String
  conversationId : Option Nat
  since : Option Nat
  limit : Option Nat
deriving Repr, DecidableEq

namespace MessageStore

/-- MessageStore.rowToMessage: field-for-field translation of a row;
`mediaUrls` is `row.media_urls ? JSON.parse(row.media_urls) : undefined`
(NULL is falsy, any stored JSON array string is non-empty hence truthy, and
parsing recovers exactly the serialized array), and the error fields are
`row.error_code || undefined` / `row.error_message || undefined`. -/
def rowToMessage (r : MsgRow) : Message :=
  { messageSid := r.messageSid
    conversationId := r.conversationId
    direction := r.direction
    fromNumber := r.fromNumber
    toNumber := r.toNumber
    body := r.body
    mediaUrls := r.mediaUrls
    timestamp := r.timestamp
    status := r.status
    errorCode := jsOrNull r.errorCode
    errorMessage := jsOrNull r.errorMessage }

/-- MessageStore.create: inserts one row; the timestamp defaults to now
when the caller supplies none; `media_urls` stores
`message.mediaUrls ? JSON.stringify(message.mediaUrls) : null` (an empty
array is truthy in JavaScript and is therefore stored, not nulled); the
error columns store `message.errorCode || null` and
`message.errorMessage || null`. -/
def create (db : List MsgRow) (m : MessageInput) (now : Nat) : List MsgRow :=
  db ++
    [{ messageSid := m.messageSid
       conversationId := m.conversationId
       direction := m.direction
       fromNumber := m.fromNumber
       toNumber := m.toNumber
       body := m.body
       mediaUrls := m.mediaUrls
       timestamp := m.timestamp.getD now
       status := m.status
       errorCode := jsOrNull m.errorCode
       errorMessage := jsOrNull m.errorMessage }]

/-- MessageStore.getBySid:
`SELECT * FROM messages WHERE message_sid = ?` plus rowToMessage. -/
def getBySid (db : List MsgRow) (messageSid : String) : Option Message :=
  (db.find? fun r => r.messageSid == messageSid).map rowToMessage

/-- Row order `timestamp ASC` used by getByConversation. -/
def tsAsc (r s : MsgRow) : Prop := r.timestamp ≤ s.timestamp

instance : DecidableRel tsAsc := fun r s => Nat.decLe r.timestamp s.timestamp

instance : IsTotal MsgRow tsAsc := ⟨fun r s => Nat.le_total r.timestamp s.timestamp⟩

instance : IsTrans MsgRow tsAsc := ⟨fun _ _ _ h h' => Nat.le_trans h h'⟩

/-- Row order `timestamp DESC` used by query. -/
def tsDesc (r s : MsgRow) : Prop := s.timestamp ≤ r.timestamp

instance : DecidableRel tsDesc := fun r s => Nat.decLe s.timestamp r.timestamp

instance : IsTotal MsgRow tsDesc := ⟨fun r s => Nat.le_total s.timestamp r.timestamp⟩

instance : IsTrans MsgRow tsDesc := ⟨fun _ _ _ h h' => Nat.le_trans h' h⟩

/-- MessageStore.getByConversation:
`SELECT * FROM messages WHERE conversation_id = ? ORDER BY timestamp ASC
LIMIT ?` (the TS default for the limit is 100). -/
def getByConversation (db : List MsgRow) (conversationId : Nat) (limit : Nat) :
    List Message :=
  ((List.insertionSort tsAsc
      (db.filter fun r => r.conversationId == conversationId)).take limit).map
    rowToMessage

/-- The WHERE clause MessageStore.query builds: each filter clause is added
only when the parameter is truthy (`if (params.from)` etc.), so a missing
filter — and, for the string filters, an empty string — imposes no
constraint; `since` adds `timestamp >= ?`. -/
def queryFilter (p : QueryParams) (r : MsgRow) : Bool :=
  (match p.fromNumber with
   | none => true
   | some s => if s = "" then true else r.fromNumber == s) &&
  (match p.toNumber with
   | none => true
   | some s => if s = "" then true else r.toNumber == s) &&
  (match p.conversationId with
   | none => true
   | some c => r.conversationId == c) &&
  (match p.since with
   | none => true
   | some t => t ≤ r.timestamp)

/-- The LIMIT value MessageStore.query binds: `params.limit || 50`, so a
missing limit and a limit of 0 (falsy) both become 50. -/
def effectiveLimit (p : QueryParams) : Nat :=
  match p.limit with
  | none => 50
  | some l => if l = 0 then 50 else l

/-- MessageStore.query: ANDed truthy filters, `ORDER BY timestamp DESC`,
then the effective LIMIT. -/
def query (db : List MsgRow) (p : QueryParams) : List Message :=
  ((List.insertionSort tsDesc (db.filter (queryFilter p))).take
    (effectiveLimit p)).map rowToMessage

/-- MessageStore.updateStatus:
`UPDATE messages SET status = ?, error_code = ?, error_message = ?
WHERE message_sid = ?`, binding `errorCode || null` and
`errorMessage || null`. -/
def updateStatus (db : List MsgRow) (messageSid status : String)
    (errorCode errorMessage : Option String) : List MsgRow :=
  db.map fun r =>
    if r.messageSid == messageSid then
      { r with
        status := status
        errorCode := jsOrNull errorCode
        errorMessage := jsOrNull errorMessage }
    else r

end MessageStore

/-! Orchestration: the outbound tool path (src/tools/send-sms.ts) and the
inbound webhook path (src/webhook-server.ts). -/

/-- The configuration fields the two paths read (src/config/env.ts). -/
structure Config where
  twilioPhoneNumber : String
  autoCreateConversations : Bool
deriving Repr, DecidableEq

/-- Combined persistent state: both stores share one database. -/
structure Stores where
  convs : ConversationDB
  msgs : List MsgRow
deriving Repr, DecidableEq

/-- Shape of the transport response `twilioClient.sendSms` resolves with;
the provider's reply is nondeterministic, so it is passed in as data. -/
structure TwilioMessageInfo where
  sid : String
  status : String
  toNumber : String
  fromNumber : Option String
  body : String
deriving Repr, DecidableEq

/-- Validated arguments of the send_sms tool (post zod validation; the zod
schema guarantees `to` is E.164 and `conversationId`, when present, is a
well-formed non-empty UUID). -/
structure SendSmsParams where
  toNumber : String
  message : String
  fromNumber : Option String
  conversationId : Option Nat
deriving Repr, DecidableEq

/-- Result object send_sms returns on success. -/
structure SendSmsResult where
  messageSid : String
  status : String
  toNumber : String
  fromNumber : String
  conversationId : Nat
  timestamp : Nat
deriving Repr, DecidableEq

/-- Observable external effect of the outbound path: the single transport
send `twilioClient.sendSms({to, body, from})`. -/
inductive SendEffect where
  | twilioSend (toNumber body : String) (fromNumber : Option String)
deriving Repr, DecidableEq

/-- sendSms from src/tools/send-sms.ts: resolve the conversation (explicit
id wins and is used without any lookup; otherwise find by participants,
then create when the auto-create flag allows, otherwise throw), send via
the transport, store the outbound message, touch conversation activity.
The returned effect list records the transport calls made; a thrown error
is modelled as `Except.error` with the thrown message, and the throw
happens before any effect or state change. -/
def sendSms (cfg : Config) (tw : TwilioMessageInfo) (p : SendSmsParams)
    (st : Stores) (now : Nat) :
    Except String (Stores × List SendEffect × SendSmsResult) := do
  let resolved : Except String (Nat × Stores) :=
    match p.conversationId with
    | some cid => .ok (cid, st)
    | none =>
      let fromN := jsOr p.fromNumber cfg.twilioPhoneNumber
      let participants := [fromN, p.toNumber]
      match ConversationStore.findByParticipants st.convs participants with
      | some conv => .ok (conv.id, st)
      | none =>
        if cfg.autoCreateConversations then
          let res := ConversationStore.create st.convs participants none now
          .ok (res.1.id, { st with convs := res.2 })
        else
          .error "No conversation found and auto-creation is disabled"
  let (cid, st1) ← resolved
  let storedFrom := jsOr tw.fromNumber cfg.twilioPhoneNumber
  let msgs1 := MessageStore.create st1.msgs
    { messageSid := tw.sid
      conversationId := cid
      direction := "outbound"
      fromNumber := storedFrom
      toNumber := tw.toNumber
      body := tw.body
      mediaUrls := none
      status := tw.status
      errorCode := none
      errorMessage := none
      timestamp := none } now
  let convs1 := ConversationStore.updateLastActivity st1.convs cid now
  .ok ({ convs := convs1, msgs := msgs1 },
       [SendEffect.twilioSend p.toNumber p.message p.fromNumber],
       { messageSid := tw.sid
         status := tw.status
         toNumber := tw.toNumber
         fromNumber := storedFrom
         conversationId := cid
         timestamp := now })

/-- Form fields of the inbound SMS webhook; `mediaUrls` stands for the
values extracted from MediaUrl0..NumMedia-1 in order. -/
structure InboundSmsBody where
  messageSid : String
  fromNumber : String
  toNumber : String
  body : String
  mediaUrls : List String
deriving Repr, DecidableEq

/-- HTTP response of a webhook handler (status code and body). -/
structure HttpResponse where
  status : Nat
  body : String
deriving Repr, DecidableEq

/-- POST /webhooks/twilio/sms handler from src/webhook-server.ts:
reject with 403 on a bad signature; otherwise find or (policy permitting)
create the conversation, store the inbound message with status 'received',
touch activity, and answer 200 with empty TwiML; when no conversation is
found and auto-creation is disabled, store nothing and still answer 200
with empty TwiML. -/
def handleInboundSms (cfg : Config) (sigValid : Bool) (wb : InboundSmsBody)
    (st : Stores) (now : Nat) : Stores × HttpResponse :=
  if sigValid = false then
    (st, { status := 403, body := "Forbidden" })
  else
    let participants := [wb.fromNumber, wb.toNumber]
    let storeMsg := fun (convId : Nat) (st' : Stores) =>
      let msgs1 := MessageStore.create st'.msgs
        { messageSid := wb.messageSid
          conversationId := convId
          direction := "inbound"
          fromNumber := wb.fromNumber
          toNumber := wb.toNumber
          body := wb.body
          mediaUrls := if wb.mediaUrls.length > 0 then some wb.mediaUrls else none
          status := "received"
          errorCode := none
          errorMessage := none
          timestamp := none } now
      let convs1 := ConversationStore.updateLastActivity st'.convs convId now
      (({ convs := convs1, msgs := msgs1 } : Stores),
       ({ status := 200, body := "<Response></Response>" } : HttpResponse))
    match ConversationStore.findByParticipants st.convs participants with
    | some conv => storeMsg conv.id st
    | none =>
      if cfg.autoCreateConversations then
        let res := ConversationStore.create st.convs participants
          (some [("source", "inbound_sms"), ("firstMessage", wb.body)]) now
        storeMsg res.1.id { st with convs := res.2 }
      else
        (st, { status := 200, body := "<Response></Response>" })

/-! Concrete data used by the witness and counterexample theorems below. -/

/-- One active conversation for the pair used in the C1 witness. -/
def c1Db : ConversationDB :=
  { rows := [{ id := 0
               participantsKey := "+15551234567|+15559876543"
               createdAt := 5
               lastActivity := 5
               metadata := []
               status := "active" }]
    nextId := 1 }

/-- Older active duplicate row for the C3 witness. -/
def c3RowOld : ConvRow :=
  { id := 0
    participantsKey := "+15551234567|+15559876543"
    createdAt := 5
    lastActivity := 10
    metadata := []
    status := "active" }

/-- Newer active duplicate row for the C3 witness. -/
def c3RowNew : ConvRow :=
  { id := 1
    participantsKey := "+15551234567|+15559876543"
    createdAt := 7
    lastActivity := 20
    metadata := []
    status := "active" }

/-- Store holding two active duplicates of the same participant set. -/
def c3Db : ConversationDB := { rows := [c3RowOld, c3RowNew], nextId := 2 }

/-- Single active conversation used by the C4 witness. -/
def c4Row : ConvRow :=
  { id := 0
    participantsKey := "+15551234567|+15559876543"
    createdAt := 5
    lastActivity := 5
    metadata := []
    status := "active" }

/-- Store used by the C4 witness. -/
def c4Db : ConversationDB := { rows := [c4Row], nextId := 1 }

/-- Stored outbound message used by the C5 scenario and counterexample. -/
def c5Row : MsgRow :=
  { messageSid := "SM1"
    conversationId := 0
    direction := "outbound"
    fromNumber := "+15551234567"
    toNumber := "+15559876543"
    body := "hi"
    mediaUrls := none
    timestamp := 1
    status := "queued"
    errorCode := none
    errorMessage := none }

/-- Message table used by the C5 scenario and counterexample. -/
def c5Db : List MsgRow := [c5Row]

/-- C5 scenario, first step: a failure-status update with error details. -/
def c5Db1 : List MsgRow :=
  MessageStore.updateStatus c5Db "SM1" "failed" (some "30003")
    (some "Unreachable destination handset")

/-- C5 scenario, second step: a success-status update with no error args. -/
def c5Db2 : List MsgRow :=
  MessageStore.updateStatus c5Db1 "SM1" "delivered" none none

/-- The message the C5 scenario must end with. -/
def c5Final : Message :=
  { messageSid := "SM1"
    conversationId := 0
    direction := "outbound"
    fromNumber := "+15551234567"
    toNumber := "+15559876543"
    body := "hi"
    mediaUrls := none
    timestamp := 1
    status := "delivered"
    errorCode := none
    errorMessage := none }

/-- C6 scenario rows: three messages in conversation 1 with timestamps
10 < 20 < 30, inserted in a scrambled storage order. -/
def c6Row1 : MsgRow :=
  { messageSid := "SM1"
    conversationId := 1
    direction := "outbound"
    fromNumber := "+15551234567"
    toNumber := "+15559876543"
    body := "first"
    mediaUrls := none
    timestamp := 10
    status := "sent"
    errorCode := none
    errorMessage := none }

/-- Second C6 scenario row. -/
def c6Row2 : MsgRow :=
  { c6Row1 with messageSid := "SM2", body := "second", timestamp := 20 }

/-- Third C6 scenario row. -/
def c6Row3 : MsgRow :=
  { c6Row1 with messageSid := "SM3", body := "third", timestamp := 30 }

/-- Message table for the C6 scenario, stored out of timestamp order. -/
def c6Db : List MsgRow := [c6Row2, c6Row3, c6Row1]

/-- Query filter selecting conversation 1, everything else defaulted. -/
def c6Params : QueryParams :=
  { fromNumber := none
    toNumber := none
    conversationId := some 1
    since := none
    limit := none }

/-- Row used by the C7 counterexample and witness. -/
def c7Row : MsgRow := { c6Row1 with messageSid := "SM7", timestamp := 5 }

/-- Message table for C7. -/
def c7Db : List MsgRow := [c7Row]

/-- Filters with an empty-string `from` and a limit of 0: both are falsy
in JavaScript, so the code treats both as absent. -/
def c7Params : QueryParams :=
  { fromNumber := some ""
    toNumber := none
    conversationId := none
    since := none
    limit := some 0 }

/-- Fully supplied, non-falsy filters for the C7 witness. -/
def c7GoodParams : QueryParams :=
  { fromNumber := some "+15551234567"
    toNumber := some "+15559876543"
    conversationId := some 1
    since := some 3
    limit := some 2 }

/-- The message c7Row reads back as. -/
def c7Msg : Message := MessageStore.rowToMessage c7Row

/-- Create input with two ordered media URLs for the C8 witness. -/
def c8In1 : MessageInput :=
  { messageSid := "MM1"
    conversationId := 1
    direction := "inbound"
    fromNumber := "+15559876543"
    toNumber := "+15551234567"
    body := ""
    mediaUrls := some ["https://api.example.com/media/a.jpg",
                       "https://api.example.com/media/b.jpg"]
    status := "received"
    errorCode := none
    errorMessage := none
    timestamp := none }

/-- Create input with no media for the C8 witness. -/
def c8In2 : MessageInput := { c8In1 with messageSid := "SM8", mediaUrls := none }

/-- Configuration with the auto-create policy flag disabled, as used by the
C9 witness. -/
def c9Cfg : Config :=
  { twilioPhoneNumber := "+15550001111", autoCreateConversations := false }

/-- Empty store state (fresh database). -/
def emptyStores : Stores := { convs := { rows := [], nextId := 0 }, msgs := [] }

/-- send_sms parameters without an explicit conversation id (C9). -/
def c9Params : SendSmsParams :=
  { toNumber := "+15559876543"
    message := "hello"
    fromNumber := none
    conversationId := none }

/-- Transport reply used by the C9 and C10 witnesses. -/
def c9Tw : TwilioMessageInfo :=
  { sid := "SM900"
    status := "queued"
    toNumber := "+15559876543"
    fromNumber := some "+15550001111"
    body := "hello" }

/-- Inbound webhook body used by the C9 witness. -/
def c9Wb : InboundSmsBody :=
  { messageSid := "SM901"
    fromNumber := "+15559876543"
    toNumber := "+15550001111"
    body := "hi there"
    mediaUrls := [] }

/-- Configuration used by the C10 witness (flag value is irrelevant on the
explicit-conversation-id path). -/
def c10Cfg : Config :=
  { twilioPhoneNumber := "+15550001111", autoCreateConversations := true }

/-- send_sms parameters with an explicit conversation id 42 that exists in
no store (C10). -/
def c10Params : SendSmsParams :=
  { toNumber := "+15559876543"
    message := "hello"
    fromNumber := none
    conversationId := some 42 }

/-! Helper lemmas. -/

theorem find?_map_comm {α : Type} (f : α → α) (p : α → Bool)
    (hp : ∀ x, p (f x) = p x) :
    ∀ l : List α, (l.map f).find? p = (l.find? p).map f
  | [] => rfl
  | x :: xs => by
    by_cases hx : p x = true
    · rw [List.map_cons, List.find?_cons_of_pos _ ((hp x).trans hx),
        List.find?_cons_of_pos _ hx, Option.map_some']
    · rw [List.map_cons, List.find?_cons_of_neg _ (by rw [hp x]; exact hx),
        List.find?_cons_of_neg _ hx, find?_map_comm f p hp xs]

theorem pickLatest_eq_none :
    ∀ {l : List ConvRow}, ConversationStore.pickLatest l = none → l = []
  | [], _ => rfl
  | a :: as, h => by
    simp only [ConversationStore.pickLatest] at h
    cases hm : ConversationStore.pickLatest as with
    | none => simp only [hm] at h; exact Option.noConfusion h
    | some m =>
      simp only [hm] at h
      by_cases hlt : m.lastActivity > a.lastActivity
      · rw [if_pos hlt] at h; exact Option.noConfusion h
      · rw [if_neg hlt] at h; exact Option.noConfusion h

theorem pickLatest_mem :
    ∀ (l : List ConvRow) (r : ConvRow),
      ConversationStore.pickLatest l = some r → r ∈ l := by
  intro l
  induction l with
  | nil => intro r h; exact Option.noConfusion h
  | cons a as ih =>
    intro r h
    simp only [ConversationStore.pickLatest] at h
    cases hm : ConversationStore.pickLatest as with
    | none =>
      simp only [hm] at h
      injection h with h
      exact h ▸ List.mem_cons_self a as
    | some m =>
      simp only [hm] at h
      by_cases hlt : m.lastActivity > a.lastActivity
      · rw [if_pos hlt] at h
        injection h with h
        exact List.mem_cons_of_mem a (h ▸ ih m hm)
      · rw [if_neg hlt] at h
        injection h with h
        exact h ▸ List.mem_cons_self a as

theorem pickLatest_max :
    ∀ (l : List ConvRow) (r : ConvRow),
      ConversationStore.pickLatest l = some r →
      ∀ x ∈ l, x.lastActivity ≤ r.lastActivity := by
  intro l
  induction l with
  | nil => intro r _ x hx; exact absurd hx (List.not_mem_nil x)
  | cons a as ih =>
    intro r h x hx
    simp only [ConversationStore.pickLatest] at h
    cases hm : ConversationStore.pickLatest as with
    | none =>
      have has : as = [] := pickLatest_eq_none hm
      subst has
      simp only [hm] at h
      injection h with h
      subst h
      rcases List.mem_cons.mp hx with hxa | hxn
      · exact hxa ▸ Nat.le_refl _
      · exact absurd hxn (List.not_mem_nil x)
    | some m =>
      simp only [hm] at h
      rcases List.mem_cons.mp hx with hxa | hxas
      · subst hxa
        by_cases hlt : m.lastActivity > x.lastActivity
        · rw [if_pos hlt] at h
          injection h with h
          subst h
          omega
        · rw [if_neg hlt] at h
          injection h with h
          subst h
          exact Nat.le_refl _
      · have hxm := ih m hm x hxas
        by_cases hlt : m.lastActivity > a.lastActivity
        · rw [if_pos hlt] at h
          injection h with h
          subst h
          exact hxm
        · rw [if_neg hlt] at h
          injection h with h
          subst h
          omega

theorem jsOrNull_idem (x : Option String) : jsOrNull (jsOrNull x) = jsOrNull x := by
  cases x with
  | none => rfl
  | some s =>
    by_cases hs : s = ""
    · simp [jsOrNull, hs]
    · simp [jsOrNull, hs]

/-! Claim theorems. -/

/-- Claim C1: the canonical participants key is invariant under every
permutation of the participant list, and therefore findByParticipants
returns the same result (in particular the same conversation when an
active one exists) for any permutation of the same participants. -/
theorem participantsKey_lookup_permutation_invariant
    (P Q : List String) (db : ConversationDB) (h : P.Perm Q) :
    ConversationStore.getParticipantsKey P =
      ConversationStore.getParticipantsKey Q ∧
    ConversationStore.findByParticipants db P =
      ConversationStore.findByParticipants db Q := by
  have hkey : ConversationStore.getParticipantsKey P =
      ConversationStore.getParticipantsKey Q := by
    unfold ConversationStore.getParticipantsKey
    have hs : List.insertionSort jsLe P = List.insertionSort jsLe Q :=
      List.eq_of_perm_of_sorted
        (((List.perm_insertionSort jsLe P).trans h).trans
          (List.perm_insertionSort jsLe Q).symm)
        (List.sorted_insertionSort jsLe P)
        (List.sorted_insertionSort jsLe Q)
    rw [hs]
  refine ⟨hkey, ?_⟩
  unfold ConversationStore.findByParticipants
  rw [hkey]

/-- Witness for C1 at the spec's own pair of numbers, against a store that
holds an active conversation for exactly that participant set. -/
theorem participantsKey_lookup_permutation_invariant_witness :
    (["+15559876543", "+15551234567"] : List String).Perm
      ["+15551234567", "+15559876543"] ∧
    (ConversationStore.getParticipantsKey ["+15559876543", "+15551234567"] =
      ConversationStore.getParticipantsKey ["+15551234567", "+15559876543"] ∧
    ConversationStore.findByParticipants c1Db ["+15559876543", "+15551234567"] =
      ConversationStore.findByParticipants c1Db ["+15551234567", "+15559876543"]) :=
  ⟨List.Perm.swap "+15551234567" "+15559876543" [],
   participantsKey_lookup_permutation_invariant _ _ c1Db
     (List.Perm.swap "+15551234567" "+15559876543" [])⟩

/-- Claim C2: create always inserts a new row with the fresh id from the
supply, status 'active', both timestamps equal to now and metadata
defaulted to the empty map when omitted; it never deduplicates, so a
second create with the identical participant set yields a distinct id. -/
theorem create_always_inserts_fresh_row
    (db : ConversationDB) (p : List String)
    (md md2 : Option (List (String × String))) (now now2 : Nat) :
    (ConversationStore.create db p md now).1.id = db.nextId ∧
    (ConversationStore.create db p md now).1.status = "active" ∧
    (ConversationStore.create db p md now).1.createdAt = now ∧
    (ConversationStore.create db p md now).1.lastActivity = now ∧
    (ConversationStore.create db p md now).1.metadata = md.getD [] ∧
    (ConversationStore.create db p md now).2.rows =
      db.rows ++ [(ConversationStore.create db p md now).1] ∧
    (ConversationStore.create (ConversationStore.create db p md now).2
        p md2 now2).1.id ≠
      (ConversationStore.create db p md now).1.id :=
  ⟨rfl, rfl, rfl, rfl, rfl, rfl, Nat.succ_ne_self db.nextId⟩

/-- Claim C3: findByParticipants returns only active rows whose stored key
equals the canonical key of the input, picks a most-recently-active row
among the matches, and returns not-found exactly when no active row
matches. -/
theorem findByParticipants_latest_active_match
    (db : ConversationDB) (P : List String) :
    (∀ r, ConversationStore.findByParticipants db P = some r →
      r ∈ db.rows ∧ r.status = "active" ∧
      r.participantsKey = ConversationStore.getParticipantsKey P ∧
      ∀ r' ∈ db.rows, r'.status = "active" →
        r'.participantsKey = ConversationStore.getParticipantsKey P →
        r'.lastActivity ≤ r.lastActivity) ∧
    (ConversationStore.findByParticipants db P = none →
      ∀ r' ∈ db.rows, r'.status = "active" →
        r'.participantsKey ≠ ConversationStore.getParticipantsKey P) := by
  constructor
  · intro r h
    simp only [ConversationStore.findByParticipants] at h
    have hmem := pickLatest_mem _ r h
    have hmax := pickLatest_max _ r h
    rw [List.mem_filter] at hmem
    obtain ⟨hrows, hcond⟩ := hmem
    rw [Bool.and_eq_true, beq_iff_eq, beq_iff_eq] at hcond
    refine ⟨hrows, hcond.2, hcond.1, ?_⟩
    intro r' hr' hst hkey
    apply hmax
    rw [List.mem_filter, Bool.and_eq_true, beq_iff_eq, beq_iff_eq]
    exact ⟨hr', hkey, hst⟩
  · intro h r' hr' hst hkey
    simp only [ConversationStore.findByParticipants] at h
    have hempty := pickLatest_eq_none h
    have hin : r' ∈ db.rows.filter fun r =>
        r.participantsKey == ConversationStore.getParticipantsKey P &&
          r.status == "active" := by
      rw [List.mem_filter, Bool.and_eq_true, beq_iff_eq, beq_iff_eq]
      exact ⟨hr', hkey, hst⟩
    rw [hempty] at hin
    exact absurd hin (List.not_mem_nil r')

/-- Witness for C3: with two active duplicates of the same key, lookup
returns the row with the greater lastActivity. -/
theorem findByParticipants_latest_active_match_witness :
    ConversationStore.findByParticipants c3Db
      ["+15559876543", "+15551234567"] = some c3RowNew ∧
    c3RowNew ∈ c3Db.rows :=
  ⟨by decide,
   ((findByParticipants_latest_active_match c3Db
      ["+15559876543", "+15551234567"]).1 c3RowNew (by decide)).1⟩

/-- Claim C4: archiving a conversation removes it from participant-based
lookup — any row findByParticipants still returns has a different id, and
the lookup is not-found when no other active duplicate of the key exists —
while getById still returns the record, now with status 'archived'. -/
theorem archive_excludes_from_participant_lookup
    (db : ConversationDB) (cid : Nat) (r : ConvRow)
    (h : ConversationStore.getById db cid = some r) :
    ConversationStore.getById (ConversationStore.archive db cid) cid =
      some { r with status := "archived" } ∧
    (∀ P r', ConversationStore.findByParticipants
        (ConversationStore.archive db cid) P = some r' → r'.id ≠ cid) ∧
    (∀ P, ConversationStore.getParticipantsKey P = r.participantsKey →
      (∀ r' ∈ db.rows, r'.participantsKey = r.participantsKey →
        r'.status = "active" → r'.id = cid) →
      ConversationStore.findByParticipants
        (ConversationStore.archive db cid) P = none) := by
  have hp : ∀ x : ConvRow,
      ((if x.id == cid then { x with status := "archived" } else x).id == cid) =
        (x.id == cid) := by
    intro x
    by_cases hx : x.id == cid
    · rw [if_pos hx]
    · rw [if_neg hx]
  refine ⟨?_, ?_, ?_⟩
  · unfold ConversationStore.getById ConversationStore.archive
    unfold ConversationStore.getById at h
    rw [find?_map_comm _ _ hp, h, Option.map_some']
    have hr := List.find?_some h
    rw [if_pos hr]
  · intro P r' h'
    simp only [ConversationStore.findByParticipants] at h'
    have hmem := pickLatest_mem _ r' h'
    rw [List.mem_filter] at hmem
    obtain ⟨hrows, hcond⟩ := hmem
    rw [Bool.and_eq_true, beq_iff_eq, beq_iff_eq] at hcond
    unfold ConversationStore.archive at hrows
    simp only [List.mem_map] at hrows
    obtain ⟨x, hx, hfx⟩ := hrows
    by_cases hxc : x.id == cid
    · rw [if_pos hxc] at hfx
      rw [← hfx] at hcond
      have harch : ("archived" : String) = "active" := hcond.2
      exact absurd harch (by decide)
    · rw [if_neg hxc] at hfx
      rw [← hfx]
      intro hcontra
      exact hxc (beq_iff_eq.mpr hcontra)
  · intro P hkeyP honly
    simp only [ConversationStore.findByParticipants]
    have hfilter : ((ConversationStore.archive db cid).rows.filter fun x =>
        x.participantsKey == ConversationStore.getParticipantsKey P &&
          x.status == "active") = [] := by
      rw [List.filter_eq_nil_iff]
      intro a ha
      unfold ConversationStore.archive at ha
      simp only [List.mem_map] at ha
      obtain ⟨x, hx, hfx⟩ := ha
      rw [Bool.and_eq_true, beq_iff_eq, beq_iff_eq]
      rintro ⟨hk, hst⟩
      by_cases hxc : x.id == cid
      · rw [if_pos hxc] at hfx
        rw [← hfx] at hst
        have harch : ("archived" : String) = "active" := hst
        exact absurd harch (by decide)
      · rw [if_neg hxc] at hfx
        subst hfx
        exact hxc (beq_iff_eq.mpr
          (honly x hx (hkeyP ▸ hk) hst))
    rw [hfilter]
    rfl

/-- Witness for C4: archiving the only conversation makes getById return
it archived and makes participant lookup come back empty. -/
theorem archive_excludes_from_participant_lookup_witness :
    ConversationStore.getById c4Db 0 = some c4Row ∧
    ConversationStore.getById (ConversationStore.archive c4Db 0) 0 =
      some { c4Row with status := "archived" } :=
  ⟨by decide,
   (archive_excludes_from_participant_lookup c4Db 0 c4Row (by decide)).1⟩

/-- Counterexample for C5 as stated: supplying the empty string as
errorCode does not overwrite the field with that supplied value — the
JavaScript falsy check `errorCode || null` stores NULL instead, so the
read-back field is absent rather than the supplied empty string. -/
theorem updateStatus_empty_string_counterexample :
    (MessageStore.getBySid
        (MessageStore.updateStatus c5Db "SM1" "failed" (some "") (some "boom"))
        "SM1").map (fun m => m.errorCode) = some none ∧
    ¬ (MessageStore.getBySid
        (MessageStore.updateStatus c5Db "SM1" "failed" (some "") (some "boom"))
        "SM1").map (fun m => m.errorCode) = some (some "") :=
  ⟨by decide, by decide⟩

/-- Claim C5 as amended: updateStatus overwrites status with the supplied
status and unconditionally overwrites errorCode and errorMessage with the
supplied values when those are non-empty, clearing each to absent when it
is not supplied or is the empty string (JavaScript falsy semantics); in
particular an updateStatus with no error arguments after a prior
failure-status update always leaves both error fields absent. -/
theorem updateStatus_overwrites_with_falsy_clear
    (db : List MsgRow) (sid st : String) (ec em : Option String) (m : Message)
    (h : MessageStore.getBySid (MessageStore.updateStatus db sid st ec em) sid =
      some m) :
    m.status = st ∧ m.errorCode = jsOrNull ec ∧ m.errorMessage = jsOrNull em := by
  have hp : ∀ x : MsgRow,
      ((if x.messageSid == sid then
          { x with status := st, errorCode := jsOrNull ec,
                   errorMessage := jsOrNull em }
        else x).messageSid == sid) = (x.messageSid == sid) := by
    intro x
    by_cases hx : x.messageSid == sid
    · rw [if_pos hx]
    · rw [if_neg hx]
  unfold MessageStore.getBySid MessageStore.updateStatus at h
  rw [find?_map_comm _ _ hp] at h
  cases hf : db.find? (fun x => x.messageSid == sid) with
  | none => rw [hf] at h; exact Option.noConfusion h
  | some x =>
    rw [hf, Option.map_some', Option.map_some'] at h
    injection h with h
    have hx := List.find?_some hf
    rw [if_pos hx] at h
    subst h
    exact ⟨rfl, jsOrNull_idem ec, jsOrNull_idem em⟩

/-- Witness for C5 (amended), at the spec's own scenario: a failed update
with error details followed by a delivered update with no error arguments
ends with status delivered and both error fields absent. -/
theorem updateStatus_overwrites_with_falsy_clear_witness :
    MessageStore.getBySid c5Db2 "SM1" = some c5Final ∧
    c5Final.status = "delivered" ∧
    c5Final.errorCode = none ∧ c5Final.errorMessage = none :=
  ⟨by decide,
   (updateStatus_overwrites_with_falsy_clear c5Db1 "SM1" "delivered"
      none none c5Final (by decide)).1,
   ((updateStatus_overwrites_with_falsy_clear c5Db1 "SM1" "delivered"
      none none c5Final (by decide)).2.1).trans rfl,
   ((updateStatus_overwrites_with_falsy_clear c5Db1 "SM1" "delivered"
      none none c5Final (by decide)).2.2).trans rfl⟩

/-- Claim C6: getByConversation returns messages in non-decreasing
timestamp order and query returns them in non-increasing timestamp order —
reverse reading orders — and on the spec's three-message scenario
(timestamps 10 < 20 < 30 in conversation 1) the two calls return exactly
the two opposite orders. -/
theorem reading_orders_asc_desc
    (db : List MsgRow) (cid lim : Nat) (qp : QueryParams) :
    (MessageStore.getByConversation db cid lim).Pairwise
      (fun a b => a.timestamp ≤ b.timestamp) ∧
    (MessageStore.query db qp).Pairwise
      (fun a b => b.timestamp ≤ a.timestamp) ∧
    MessageStore.getByConversation c6Db 1 100 =
      [MessageStore.rowToMessage c6Row1, MessageStore.rowToMessage c6Row2,
       MessageStore.rowToMessage c6Row3] ∧
    MessageStore.query c6Db c6Params =
      [MessageStore.rowToMessage c6Row3, MessageStore.rowToMessage c6Row2,
       MessageStore.rowToMessage c6Row1] := by
  refine ⟨?_, ?_, by decide, by decide⟩
  · unfold MessageStore.getByConversation
    have hs : (List.insertionSort MessageStore.tsAsc
        (db.filter fun r => r.conversationId == cid)).Sorted
          MessageStore.tsAsc :=
      List.sorted_insertionSort MessageStore.tsAsc _
    have ht := List.Pairwise.sublist (List.take_sublist lim _) hs
    exact List.pairwise_map.mpr (ht.imp fun h => h)
  · unfold MessageStore.query
    have hs : (List.insertionSort MessageStore.tsDesc
        (db.filter (MessageStore.queryFilter qp))).Sorted
          MessageStore.tsDesc :=
      List.sorted_insertionSort MessageStore.tsDesc _
    have ht := List.Pairwise.sublist
      (List.take_sublist (MessageStore.effectiveLimit qp) _) hs
    exact List.pairwise_map.mpr (ht.imp fun h => h)

/-- Counterexample for C7 as stated: with limit supplied as 0 the code
binds `params.limit || 50` — 0 is falsy — so one message comes back even
though the claim promises at most 0; and with `from` supplied as the empty
string the returned message's from field differs from the supplied value,
because `if (params.from)` skips the falsy filter. -/
theorem query_limit_zero_counterexample :
    c7Params.limit = some 0 ∧
    c7Params.fromNumber = some "" ∧
    (MessageStore.query c7Db c7Params).map (fun m => m.fromNumber) =
      ["+15551234567"] ∧
    ¬ (MessageStore.query c7Db c7Params).length ≤ 0 :=
  ⟨rfl, rfl, by decide, by decide⟩

/-- Claim C7 as amended: every message query returns satisfies the
conjunction of the supplied filters, except that a filter supplied as the
empty string imposes no constraint (JavaScript falsy check); and at most
`effectiveLimit` messages are returned, where the effective limit is 50
when the limit is omitted or 0 (falsy) and the supplied limit otherwise. -/
theorem query_filters_and_limit_falsy (db : List MsgRow) (p : QueryParams) :
    (∀ m ∈ MessageStore.query db p,
      (∀ s, p.fromNumber = some s → s ≠ "" → m.fromNumber = s) ∧
      (∀ s, p.toNumber = some s → s ≠ "" → m.toNumber = s) ∧
      (∀ c, p.conversationId = some c → m.conversationId = c) ∧
      (∀ t, p.since = some t → t ≤ m.timestamp)) ∧
    (MessageStore.query db p).length ≤ MessageStore.effectiveLimit p := by
  constructor
  · intro m hm
    unfold MessageStore.query at hm
    rw [List.mem_map] at hm
    obtain ⟨r, hr, hrm⟩ := hm
    have hr2 : r ∈ List.insertionSort MessageStore.tsDesc
        (db.filter (MessageStore.queryFilter p)) :=
      (List.take_sublist (MessageStore.effectiveLimit p) _).subset hr
    have hr3 : r ∈ db.filter (MessageStore.queryFilter p) :=
      (List.perm_insertionSort MessageStore.tsDesc _).mem_iff.mp hr2
    rw [List.mem_filter] at hr3
    have hq := hr3.2
    unfold MessageStore.queryFilter at hq
    rw [Bool.and_eq_true, Bool.and_eq_true, Bool.and_eq_true] at hq
    obtain ⟨⟨⟨hfrom, hto⟩, hconv⟩, hsince⟩ := hq
    subst hrm
    refine ⟨?_, ?_, ?_, ?_⟩
    · intro s hs hne
      simp only [hs, if_neg hne] at hfrom
      exact beq_iff_eq.mp hfrom
    · intro s hs hne
      simp only [hs, if_neg hne] at hto
      exact beq_iff_eq.mp hto
    · intro c hc
      simp only [hc] at hconv
      exact beq_iff_eq.mp hconv
    · intro t ht
      simp only [ht] at hsince
      exact of_decide_eq_true hsince
  · unfold MessageStore.query
    rw [List.length_map, List.length_take]
    exact min_le_left _ _

/-- Witness for C7 (amended): non-falsy filters all take effect and the
result stays within the effective limit. -/
theorem query_filters_and_limit_falsy_witness :
    c7Msg ∈ MessageStore.query c7Db c7GoodParams ∧
    c7Msg.fromNumber = "+15551234567" ∧
    (MessageStore.query c7Db c7GoodParams).length ≤
      MessageStore.effectiveLimit c7GoodParams :=
  ⟨by decide,
   ((query_filters_and_limit_falsy c7Db c7GoodParams).1 c7Msg
      (by decide)).1 "+15551234567" rfl (by decide),
   (query_filters_and_limit_falsy c7Db c7GoodParams).2⟩

/-- Claim C8: a message created with an ordered sequence of media URLs
reads back (getBySid) with exactly the same URLs in the same order, and a
message created with mediaUrls absent reads back with the field absent —
not as an empty sequence. The hypothesis says the SID is new, matching the
messages table's primary-key constraint. -/
theorem mediaUrls_roundtrip (db : List MsgRow) (m : MessageInput) (now : Nat)
    (h : ∀ r ∈ db, r.messageSid ≠ m.messageSid) :
    (MessageStore.getBySid (MessageStore.create db m now) m.messageSid).map
      (fun x => x.mediaUrls) = some m.mediaUrls := by
  unfold MessageStore.getBySid MessageStore.create
  rw [List.find?_append]
  have hnone : db.find? (fun r => r.messageSid == m.messageSid) = none := by
    rw [List.find?_eq_none]
    intro x hx
    simp only [beq_iff_eq]
    exact h x hx
  rw [hnone]
  simp [List.find?_cons, MessageStore.rowToMessage]

/-- Witness for C8: a two-URL MMS reads back with both URLs in order, and
a message with no media reads back with the field absent. -/
theorem mediaUrls_roundtrip_witness :
    (MessageStore.getBySid (MessageStore.create [] c8In1 7)
        c8In1.messageSid).map (fun x => x.mediaUrls) =
      some (some ["https://api.example.com/media/a.jpg",
                  "https://api.example.com/media/b.jpg"]) ∧
    (MessageStore.getBySid (MessageStore.create [] c8In2 7)
        c8In2.messageSid).map (fun x => x.mediaUrls) = some none :=
  ⟨(mediaUrls_roundtrip [] c8In1 7 (fun r hr =>
      absurd hr (List.not_mem_nil r))).trans rfl,
   (mediaUrls_roundtrip [] c8In2 7 (fun r hr =>
      absurd hr (List.not_mem_nil r))).trans rfl⟩

/-- Claim C9: when no active conversation exists for the participant pair
and the auto-create flag is disabled, send_sms fails with the policy error
before any transport send or store write (the error result carries no
state change and no effect), while the inbound webhook stores nothing and
still acknowledges with HTTP 200 and empty TwiML rather than an error. -/
theorem no_conversation_outbound_error_inbound_ack
    (cfg : Config) (tw : TwilioMessageInfo) (p : SendSmsParams)
    (wb : InboundSmsBody) (st : Stores) (now : Nat)
    (hauto : cfg.autoCreateConversations = false)
    (hcid : p.conversationId = none)
    (hfs : ConversationStore.findByParticipants st.convs
      [jsOr p.fromNumber cfg.twilioPhoneNumber, p.toNumber] = none)
    (hfw : ConversationStore.findByParticipants st.convs
      [wb.fromNumber, wb.toNumber] = none) :
    sendSms cfg tw p st now =
      .error "No conversation found and auto-creation is disabled" ∧
    handleInboundSms cfg true wb st now =
      (st, { status := 200, body := "<Response></Response>" }) := by
  constructor
  · unfold sendSms
    simp only [hcid, hfs, hauto]
    rfl
  · unfold handleInboundSms
    simp only [hfw, hauto]
    rfl

/-- Witness for C9 against an empty store with auto-creation disabled. -/
theorem no_conversation_outbound_error_inbound_ack_witness :
    c9Cfg.autoCreateConversations = false ∧
    sendSms c9Cfg c9Tw c9Params emptyStores 3 =
      .error "No conversation found and auto-creation is disabled" ∧
    handleInboundSms c9Cfg true c9Wb emptyStores 3 =
      (emptyStores, { status := 200, body := "<Response></Response>" }) :=
  ⟨rfl,
   (no_conversation_outbound_error_inbound_ack c9Cfg c9Tw c9Params c9Wb
      emptyStores 3 rfl rfl (by decide) (by decide)).1,
   (no_conversation_outbound_error_inbound_ack c9Cfg c9Tw c9Params c9Wb
      emptyStores 3 rfl rfl (by decide) (by decide)).2⟩

/-- Claim C10: send_sms with an explicit conversationId never looks the
conversation up: even when no conversation with that id exists, the
transport send happens, the message row is inserted with that
conversationId, updateLastActivity is a silent no-op (the conversation
table is unchanged), and the call returns success. -/
theorem explicit_conversationId_unchecked_insert
    (cfg : Config) (tw : TwilioMessageInfo) (p : SendSmsParams)
    (st : Stores) (now : Nat) (cid : Nat)
    (hcid : p.conversationId = some cid)
    (hno : ∀ r ∈ st.convs.rows, r.id ≠ cid) :
    sendSms cfg tw p st now =
      .ok ({ convs := st.convs
             msgs := MessageStore.create st.msgs
               { messageSid := tw.sid
                 conversationId := cid
                 direction := "outbound"
                 fromNumber := jsOr tw.fromNumber cfg.twilioPhoneNumber
                 toNumber := tw.toNumber
                 body := tw.body
                 mediaUrls := none
                 status := tw.status
                 errorCode := none
                 errorMessage := none
                 timestamp := none } now },
           [SendEffect.twilioSend p.toNumber p.message p.fromNumber],
           { messageSid := tw.sid
             status := tw.status
             toNumber := tw.toNumber
             fromNumber := jsOr tw.fromNumber cfg.twilioPhoneNumber
             conversationId := cid
             timestamp := now }) := by
  have hupd : ConversationStore.updateLastActivity st.convs cid now = st.convs := by
    unfold ConversationStore.updateLastActivity
    have hrows : st.convs.rows.map (fun r =>
        if r.id == cid then { r with lastActivity := now } else r) =
        st.convs.rows := by
      rw [List.map_congr_left (g := fun r => r), List.map_id']
      intro r hr
      rw [if_neg]
      intro hcontra
      exact hno r hr (beq_iff_eq.mp hcontra)
    rw [hrows]
  have hstep : sendSms cfg tw p st now =
      Except.ok ({ convs := ConversationStore.updateLastActivity st.convs cid now
                   msgs := MessageStore.create st.msgs
                     { messageSid := tw.sid
                       conversationId := cid
                       direction := "outbound"
                       fromNumber := jsOr tw.fromNumber cfg.twilioPhoneNumber
                       toNumber := tw.toNumber
                       body := tw.body
                       mediaUrls := none
                       status := tw.status
                       errorCode := none
                       errorMessage := none
                       timestamp := none } now },
                 [SendEffect.twilioSend p.toNumber p.message p.fromNumber],
                 { messageSid := tw.sid
                   status := tw.status
                   toNumber := tw.toNumber
                   fromNumber := jsOr tw.fromNumber cfg.twilioPhoneNumber
                   conversationId := cid
                   timestamp := now }) := by
    unfold sendSms
    rw [hcid]
    rfl
  rw [hstep, hupd]

/-- Witness for C10: an explicit conversation id 42 against an empty store
succeeds and inserts a message referencing the nonexistent conversation. -/
theorem explicit_conversationId_unchecked_insert_witness :
    sendSms c10Cfg c9Tw c10Params emptyStores 3 =
      .ok ({ convs := emptyStores.convs
             msgs := MessageStore.create emptyStores.msgs
               { messageSid := c9Tw.sid
                 conversationId := 42
                 direction := "outbound"
                 fromNumber := jsOr c9Tw.fromNumber c10Cfg.twilioPhoneNumber
                 toNumber := c9Tw.toNumber
                 body := c9Tw.body
                 mediaUrls := none
                 status := c9Tw.status
                 errorCode := none
                 errorMessage := none
                 timestamp := none } 3 },
           [SendEffect.twilioSend c10Params.toNumber c10Params.message
              c10Params.fromNumber],
           { messageSid := c9Tw.sid
             status := c9Tw.status
             toNumber := c9Tw.toNumber
             fromNumber := jsOr c9Tw.fromNumber c10Cfg.twilioPhoneNumber
             conversationId := 42
             timestamp := 3 }) :=
  explicit_conversationId_unchecked_insert c10Cfg c9Tw c10Params emptyStores
    3 42 rfl (fun r hr => absurd hr (List.not_mem_nil r))

end TwilioMcp
